import Mathlib

/-!
Verification of the external resolver orchestration subsystem
(`PythonResolver` in `resolver.js`).

The JavaScript class is shallowly embedded: the mutable instance fields
become an explicit `ResolverState`, external effects (the file system, the
child process, the HTTP fetch, the clock) become explicit environment
records passed to each operation, and every operation is a pure Lean
function from its inputs and the current state to its result and the next
state.  Millisecond timestamps are natural numbers.
-/

namespace PythonResolver

/- ### Basic characters and string helpers -/

/-- The double-quote character. -/
def quoteChar : Char := Char.ofNat 34

/-- The single-quote character. -/
def apostChar : Char := Char.ofNat 39

/-- The backslash character. -/
def backslashChar : Char := Char.ofNat 92

/-- The newline character. -/
def newlineChar : Char := Char.ofNat 10

/-- The horizontal tab character. -/
def tabChar : Char := Char.ofNat 9

/-- The carriage-return character. -/
def crChar : Char := Char.ofNat 13

/-- Whether `p` is a prefix of `s` (character lists). -/
def isPrefOf : List Char → List Char → Bool
  | [], _ => true
  | _ :: _, [] => false
  | p :: ps, c :: cs => p = c && isPrefOf ps cs

/-- Whether `pat` occurs as a contiguous substring of `s` (character lists). -/
def hasSub (pat : List Char) : List Char → Bool
  | [] => isPrefOf pat []
  | c :: cs => isPrefOf pat (c :: cs) || hasSub pat cs

/-- JavaScript `String.prototype.includes`: substring containment. -/
def jsIncludes (s pat : String) : Bool :=
  hasSub pat.toList s.toList

/-- Escaping of one character in a JSON string literal, as performed by
`JSON.stringify` (quotes, backslashes and the common control characters;
header values in practice contain none of these). -/
def jsonEscapeChar (c : Char) : String :=
  if c = quoteChar then String.singleton backslashChar ++ String.singleton quoteChar
  else if c = backslashChar then String.singleton backslashChar ++ String.singleton backslashChar
  else if c = newlineChar then String.singleton backslashChar ++ "n"
  else if c = tabChar then String.singleton backslashChar ++ "t"
  else if c = crChar then String.singleton backslashChar ++ "r"
  else String.singleton c

/-- A JSON string literal for `s`. -/
def jsonQuote (s : String) : String :=
  String.singleton quoteChar ++ String.join (s.toList.map jsonEscapeChar)
    ++ String.singleton quoteChar

/-- `JSON.stringify` applied to the header mapping.  A JavaScript object
enumerates its (non-integer-like) string properties in insertion order, so
the mapping is embedded as an association list in insertion order and the
serialization follows that order. -/
def jsonStringifyHeaders (headers : List (String × String)) : String :=
  "\x7b" ++
    String.intercalate ","
      (headers.map fun p => jsonQuote p.1 ++ ":" ++ jsonQuote p.2)
    ++ "\x7d"

/- ### Result cache (`resolvedLinksCache`, a `Map` keyed by strings) -/

/-- One entry of `resolvedLinksCache`: the `Date.now()` timestamp recorded
at insertion, and the parsed result object. -/
structure CacheEntry (α : Type) where
  timestamp : Nat
  data : α
deriving DecidableEq

/-- `resolver.js` line 13: `this.cacheExpiryTime = 20 * 60 * 1000` —
20 minutes, in milliseconds. -/
def cacheExpiryTime : Nat := 20 * 60 * 1000

/-- `resolver.js` line 97: the cache key is
`url + ":" + JSON.stringify(headers)`. -/
def cacheKey (url : String) (headers : List (String × String)) : String :=
  url ++ ":" ++ jsonStringifyHeaders headers

/-- `Map.get`: the value stored under `key`, if any. -/
def cacheGet (cache : List (String × CacheEntry α)) (key : String) :
    Option (CacheEntry α) :=
  match cache with
  | [] => none
  | (k, v) :: rest => if k = key then some v else cacheGet rest key

/-- `Map.set`: overwrite the entry under `key` in place, or append it. -/
def cacheSet (key : String) (v : CacheEntry α) :
    List (String × CacheEntry α) → List (String × CacheEntry α)
  | [] => [(key, v)]
  | (k, w) :: rest =>
    if k = key then (key, v) :: rest else (k, w) :: cacheSet key v rest

/-- `Map.delete`: remove every entry stored under `key`. -/
def cacheErase (key : String) :
    List (String × CacheEntry α) → List (String × CacheEntry α)
  | [] => []
  | (k, w) :: rest =>
    if k = key then cacheErase key rest else (k, w) :: cacheErase key rest

/- ### Resolver state (the mutable fields of the `PythonResolver` instance) -/

/-- The mutable instance fields of `PythonResolver`, plus the content of
the script file at `this.scriptPath` (`scriptContent = none` models a
missing file, mirroring `fs.existsSync`). -/
structure ResolverState (α : Type) where
  cache : List (String × CacheEntry α)
  lastExecution : Option Nat
  lastError : Option String
  isRunning : Bool
  scriptUrl : Option String
  cronJob : Option String
  updateInterval : Option String
  scriptContent : Option String

/- ### resolveLink -/

/-- The external effects observed by one `resolveLink` call:
`now` is `Date.now()`; `execThrows = some msg` models `execAsync` (or the
temporary-file write inside the same `try`) rejecting with message `msg`;
`outputExists`/`outputContent` model the output artifact after a normal
process exit; `parse` models `JSON.parse`, which either yields the parsed
object or throws with a message. -/
structure ResolveEnv (α : Type) where
  now : Nat
  execThrows : Option String
  outputExists : Bool
  outputContent : String
  parse : String → Except String α

/-- The outcome of one `resolveLink` call: the returned value (`none` for
JavaScript `null`), the state after the call, and whether the external
program was invoked. -/
structure ResolveOutcome (α : Type) where
  result : Option α
  state : ResolverState α
  invoked : Bool

/-- The cache-miss continuation of `resolveLink` (`resolver.js` lines
104-185): the script-existence check, then the guarded `try` block that
runs the external program.  The 500 ms wait when `isRunning` is already
set has no effect in this sequential model.  Temporary-file deletion
(best-effort, logged) has no observable effect either. -/
def resolveMiss (key : String) (env : ResolveEnv α) (s : ResolverState α) :
    ResolveOutcome α :=
  if s.scriptContent.isNone then
    ⟨none, { s with lastError := some "Python resolver script not found" }, false⟩
  else
    let s1 := { s with isRunning := true }
    match env.execThrows with
    | some msg =>
      ⟨none, { s1 with lastError := some ("Execution error: " ++ msg),
                       isRunning := false }, true⟩
    | none =>
      if env.outputExists then
        match env.parse env.outputContent with
        | Except.ok result =>
          ⟨some result,
           { s1 with cache := cacheSet key ⟨env.now, result⟩ s1.cache,
                     lastExecution := some env.now,
                     lastError := none,
                     isRunning := false }, true⟩
        | Except.error msg =>
          ⟨none, { s1 with lastError := some ("Parsing error: " ++ msg),
                           isRunning := false }, true⟩
      else
        ⟨none, { s1 with lastError := some "Output file not created",
                         isRunning := false }, true⟩

/-- `PythonResolver.resolveLink` (`resolver.js` lines 95-186): consult the
cache first — a stored entry is served while `Date.now() - timestamp <
cacheExpiryTime` — and otherwise fall through to the miss path. -/
def resolveLink (url : String) (headers : List (String × String))
    (env : ResolveEnv α) (s : ResolverState α) : ResolveOutcome α :=
  let key := cacheKey url headers
  match cacheGet s.cache key with
  | some entry =>
    if env.now - entry.timestamp < cacheExpiryTime then
      ⟨some entry.data, s, false⟩
    else
      resolveMiss key env s
  | none => resolveMiss key env s

/- ### downloadScript and the scheduled tick -/

/-- The external effect observed by `downloadScript`: the outcome of
`axios.get` (and of the subsequent `fs.writeFileSync`, whose failure lands
in the same `catch`): either an error message or the response body. -/
structure DownloadEnv where
  fetchResult : Except String String

/-- The error recorded when a downloaded body lacks both entry-point
markers (`resolver.js` line 43). -/
def invalidScriptMsg : String :=
  "The script must contain a resolve_link or resolve_stream function"

/-- `PythonResolver.downloadScript` (`resolver.js` lines 33-54):
`this.scriptUrl = url` is assigned before the fetch; the body is written
to disk before the marker validation, so a body lacking both markers is
left installed. -/
def downloadScript (url : String) (env : DownloadEnv) (s : ResolverState α) :
    Bool × ResolverState α :=
  let s1 := { s with scriptUrl := some url }
  match env.fetchResult with
  | Except.error msg =>
    (false, { s1 with lastError := some ("Download error: " ++ msg) })
  | Except.ok body =>
    let s2 := { s1 with scriptContent := some body }
    if !(jsIncludes body "def resolve_link") && !(jsIncludes body "def resolve_stream") then
      (false, { s2 with lastError := some invalidScriptMsg })
    else
      (true, s2)

/-- The scheduled tick callback installed by `scheduleUpdate`
(`resolver.js` lines 227-234): re-download from the recorded source URL if
one exists, then unconditionally clear the result cache. -/
def tick (env : DownloadEnv) (s : ResolverState α) : ResolverState α :=
  let s1 :=
    match s.scriptUrl with
    | some u => (downloadScript u env s).2
    | none => s
  { s1 with cache := [] }

/- ### Scheduling -/

/-- The regular expression of `resolver.js` line 198,
`^\d\x7b1,2\x7d:\d\x7b2\x7d$`: one or two digits, a colon, exactly two
digits. -/
def matchesTimeFormat (t : String) : Bool :=
  match t.toList with
  | [h1, ':', m1, m2] => h1.isDigit && m1.isDigit && m2.isDigit
  | [h1, h2, ':', m1, m2] => h1.isDigit && h2.isDigit && m1.isDigit && m2.isDigit
  | _ => false

/-- Split a character list at its first colon. -/
def splitAtColon : List Char → List Char × List Char
  | [] => ([], [])
  | c :: rest =>
    if c = ':' then ([], rest)
    else
      let p := splitAtColon rest
      (c :: p.1, p.2)

/-- The numeric value of a digit string (JavaScript `Number` on the digit
fields the shape check admits). -/
def digitsToNat (cs : List Char) : Nat :=
  cs.foldl (fun n c => n * 10 + (c.toNat - '0'.toNat)) 0

/-- `timeFormat.split(':').map(Number)` destructured into
`[hours, minutes]`.  This is only reached after the shape check has
passed, which guarantees exactly one colon and digit-only fields; on
those inputs splitting at the first colon and reading the two digit
fields agrees with the source expression. -/
def parseHM (t : String) : Nat × Nat :=
  let p := splitAtColon t.toList
  (digitsToNat p.1, digitsToNat p.2)

/-- The cron expression built by `scheduleUpdate` (`resolver.js` lines
217-225): `*/M * * * *` when hours = 0, otherwise `M */H * * *`. -/
def cronExpressionFor (hours minutes : Nat) : String :=
  if hours = 0 then
    "*/" ++ toString minutes ++ " * * * *"
  else
    toString minutes ++ " */" ++ toString hours ++ " * * *"

/-- Modelled from node-cron semantics for the expressions
`M */H * * *` (with `H ≥ 1`) that `scheduleUpdate` produces: the job
fires at the wall-clock times whose minute field equals `M` and whose
hour field is divisible by `H`.  `t` counts minutes since midnight. -/
def cronFiresAt (hours minutes t : Nat) : Bool :=
  t % 60 == minutes && (t / 60) % 24 % hours == 0

/-- The external effect observed by `scheduleUpdate`:
`cronThrows = some msg` models `cron.schedule` throwing with message
`msg` (caught by the surrounding `try`). -/
structure ScheduleEnv where
  cronThrows : Option String

/-- `PythonResolver.stopScheduledUpdates` (`resolver.js` lines 249-258). -/
def stopScheduledUpdates (s : ResolverState α) : Bool × ResolverState α :=
  match s.cronJob with
  | some _ => (true, { s with cronJob := none, updateInterval := none })
  | none => (false, s)

/-- `PythonResolver.scheduleUpdate` (`resolver.js` lines 193-244): stop
any existing schedule first, then validate the shape, then the bounds
(`hours < 0` and `minutes < 0` are impossible over `Nat`), then install
the cron job.  The tick callback it installs is `tick` above. -/
def scheduleUpdate (timeFormat : String) (env : ScheduleEnv)
    (s : ResolverState α) : Bool × ResolverState α :=
  let s0 := (stopScheduledUpdates s).2
  if timeFormat = "" ∨ matchesTimeFormat timeFormat = false then
    (false, { s0 with lastError := some "Invalid time format. Use HH:MM or H:MM" })
  else
    let hours := (parseHM timeFormat).1
    let minutes := (parseHM timeFormat).2
    if 23 < hours ∨ 59 < minutes then
      (false, { s0 with lastError := some "Invalid time. Hours: 0-23, Minutes: 0-59" })
    else
      match env.cronThrows with
      | some msg =>
        (false, { s0 with lastError := some ("Scheduling error: " ++ msg) })
      | none =>
        (true, { s0 with cronJob := some (cronExpressionFor hours minutes),
                         updateInterval := some timeFormat })

/-- `PythonResolver.clearCache` (`resolver.js` lines 263-267). -/
def clearCache (s : ResolverState α) : Bool × ResolverState α :=
  (true, { s with cache := [] })

/- ### Status reporting -/

/-- JavaScript whitespace matched by the regex class backslash-s
(the cases that occur in script sources). -/
def isJsSpace (c : Char) : Bool :=
  c = ' ' || c = tabChar || c = newlineChar || c = crChar

/-- Drop leading whitespace. -/
def dropSpaces : List Char → List Char
  | c :: cs => if isJsSpace c then dropSpaces cs else c :: cs
  | [] => []

/-- Whether `c` is one of the two quote characters of the version regex. -/
def isQuoteChar (c : Char) : Bool :=
  c = quoteChar || c = apostChar

/-- Strip `p` from the front of `s`, returning the remainder. -/
def stripPref : List Char → List Char → Option (List Char)
  | [], s => some s
  | _ :: _, [] => none
  | p :: ps, c :: cs => if p = c then stripPref ps cs else none

/-- Try to match the version regex of `resolver.js` line 445 at the head
of `cs`: the literal `RESOLVER_VERSION`, optional whitespace, `=`,
optional whitespace, a quote, one or more non-quote characters, a
quote. -/
def readVersionBody (cs : List Char) : Option String :=
  match stripPref "RESOLVER_VERSION".toList cs with
  | none => none
  | some rest =>
    match dropSpaces rest with
    | '=' :: rest2 =>
      match dropSpaces rest2 with
      | q :: rest3 =>
        if isQuoteChar q then
          let body := rest3.takeWhile fun c => !isQuoteChar c
          match rest3.drop body.length with
          | q2 :: _ =>
            if isQuoteChar q2 && !body.isEmpty then some (String.mk body) else none
          | [] => none
        else none
      | [] => none
    | _ => none

/-- Scan for the first position where the version regex matches. -/
def scanVersion : List Char → Option String
  | [] => none
  | c :: cs =>
    match readVersionBody (c :: cs) with
    | some v => some v
    | none => scanVersion cs

/-- `PythonResolver.getResolverVersion` (`resolver.js` lines 441-455):
extract the version marker from the script source; `N/A` when the file
does not exist or the marker is absent.  (The `Error` branch for a file
that exists but cannot be read is not modelled.) -/
def getResolverVersion (s : ResolverState α) : String :=
  match s.scriptContent with
  | none => "N/A"
  | some content =>
    match scanVersion content.toList with
    | some v => v
    | none => "N/A"

/-- The snapshot returned by `getStatus`.  `lastExecution` is kept as the
raw timestamp; the source formats it for display only. -/
structure Status where
  isRunning : Bool
  lastExecution : Option Nat
  lastError : Option String
  scriptExists : Bool
  scriptUrl : Option String
  updateInterval : Option String
  scheduledUpdates : Bool
  cacheItems : Nat
  resolverVersion : String

/-- `PythonResolver.getStatus` (`resolver.js` lines 424-436). -/
def getStatus (s : ResolverState α) : Status :=
  { isRunning := s.isRunning
    lastExecution := s.lastExecution
    lastError := s.lastError
    scriptExists := s.scriptContent.isSome
    scriptUrl := s.scriptUrl
    updateInterval := s.updateInterval
    scheduledUpdates := s.cronJob.isSome
    cacheItems := s.cache.length
    resolverVersion := getResolverVersion s }

/- ### Shared concrete fixtures for closed statements -/

/-- The instance state right after the constructor runs (`resolver.js`
lines 10-26; no script file present). -/
def emptyState : ResolverState Nat :=
  { cache := []
    lastExecution := none
    lastError := none
    isRunning := false
    scriptUrl := none
    cronJob := none
    updateInterval := none
    scriptContent := none }

/-- An environment in which the fetch returns a body with no entry-point
marker. -/
def envBadBody : DownloadEnv := ⟨Except.ok "print(1)"⟩

/-- An environment in which `cron.schedule` does not throw. -/
def envCronOk : ScheduleEnv := ⟨none⟩

/-- A resolution environment for a state with no script installed: the
remaining fields are never reached. -/
def envNoScript : ResolveEnv Nat :=
  { now := 1000
    execThrows := none
    outputExists := false
    outputContent := ""
    parse := fun _ => Except.error "e" }

/- ### Supporting lemmas -/

/-- Erasing a key removes it from lookup. -/
theorem cacheGet_cacheErase (key : String) (c : List (String × CacheEntry α)) :
    cacheGet (cacheErase key c) key = none := by
  induction c with
  | nil => rfl
  | cons p rest ih =>
    obtain ⟨k, v⟩ := p
    by_cases hk : k = key
    · simpa [cacheErase, hk] using ih
    · simp [cacheErase, cacheGet, hk, ih]

/-- The returned value and the invoked flag of the miss path do not
depend on the cache field of the starting state. -/
theorem resolveMiss_cache_irrel (key : String) (env : ResolveEnv α)
    (s : ResolverState α) (c : List (String × CacheEntry α)) :
    (resolveMiss key env { s with cache := c }).result
      = (resolveMiss key env s).result
    ∧ (resolveMiss key env { s with cache := c }).invoked
      = (resolveMiss key env s).invoked := by
  cases hsc : s.scriptContent <;>
    cases henv : env.execThrows <;>
    cases hout : env.outputExists <;>
    cases hp : env.parse env.outputContent <;>
    simp [resolveMiss, hsc, henv, hout, hp]

/- ### C6 -/

/-- C6: at the end of every scheduler tick callback the result cache is
empty — the cache is cleared unconditionally, whether or not a source URL
is recorded and whether or not the re-install succeeds. -/
theorem tick_clears_cache (env : DownloadEnv) (s : ResolverState α) :
    (tick env s).cache = [] ∧ (getStatus (tick env s)).cacheItems = 0 := by
  constructor
  · rfl
  · simp [getStatus, tick]

/- ### C10 -/

/-- C10: `downloadScript u` records `u` as the source URL before the
download is attempted, so after the call — whether the fetch fails, the
marker validation fails, or everything succeeds — the recorded source URL
(also the one reported by `getStatus`) is `u`. -/
theorem downloadScript_records_url (u : String) (env : DownloadEnv)
    (s : ResolverState α) :
    ((downloadScript u env s).2).scriptUrl = some u
    ∧ (getStatus ((downloadScript u env s).2)).scriptUrl = some u := by
  cases hf : env.fetchResult with
  | error msg => simp [downloadScript, getStatus, hf]
  | ok body =>
    by_cases h : (!(jsIncludes body "def resolve_link")
        && !(jsIncludes body "def resolve_stream")) = true
    · simp [downloadScript, getStatus, hf, h]
    · simp [downloadScript, getStatus, hf, h]

/- ### C8 -/

/-- C8: when the downloaded body contains neither the `def resolve_link`
marker nor the `def resolve_stream` marker, `downloadScript` returns
failure, sets `lastError`, and has already written the invalid body to
the program's storage path (the write precedes the validation). -/
theorem downloadScript_invalid_body (u body : String) (env : DownloadEnv)
    (s : ResolverState α)
    (hfetch : env.fetchResult = Except.ok body)
    (h1 : jsIncludes body "def resolve_link" = false)
    (h2 : jsIncludes body "def resolve_stream" = false) :
    (downloadScript u env s).1 = false
    ∧ ((downloadScript u env s).2).lastError = some invalidScriptMsg
    ∧ ((downloadScript u env s).2).scriptContent = some body := by
  simp [downloadScript, hfetch, h1, h2]

/-- Witness for C8 at the body `print(1)`, which contains no marker. -/
theorem downloadScript_invalid_body_witness :
    (downloadScript "http://x" envBadBody emptyState).1 = false
    ∧ ((downloadScript "http://x" envBadBody emptyState).2).lastError
        = some invalidScriptMsg
    ∧ ((downloadScript "http://x" envBadBody emptyState).2).scriptContent
        = some "print(1)" :=
  downloadScript_invalid_body "http://x" "print(1)" envBadBody emptyState
    rfl (by decide) (by decide)

/- ### C9 -/

/-- The miss path restores a clear running flag. -/
theorem resolveMiss_isRunning (key : String) (env : ResolveEnv α)
    (s : ResolverState α) (h : s.isRunning = false) :
    ((resolveMiss key env s).state).isRunning = false := by
  cases hsc : s.scriptContent <;>
    cases henv : env.execThrows <;>
    cases hout : env.outputExists <;>
    cases hp : env.parse env.outputContent <;>
    simp [resolveMiss, hsc, henv, hout, hp, h]

/-- C9: after a completed `resolveLink` call that started with the
running flag clear, the flag is clear again regardless of outcome — the
cache-hit and script-missing exits leave it untouched and every path
through the `try` block clears it in the `finally`. -/
theorem resolveLink_clears_isRunning (url : String)
    (headers : List (String × String)) (env : ResolveEnv α)
    (s : ResolverState α) (h : s.isRunning = false) :
    ((resolveLink url headers env s).state).isRunning = false := by
  cases hget : cacheGet s.cache (cacheKey url headers) with
  | none =>
    simpa [resolveLink, hget] using
      resolveMiss_isRunning (cacheKey url headers) env s h
  | some entry =>
    by_cases hf : env.now - entry.timestamp < cacheExpiryTime
    · simp [resolveLink, hget, hf, h]
    · simpa [resolveLink, hget, hf] using
        resolveMiss_isRunning (cacheKey url headers) env s h

/-- Witness for C9: a call on the freshly constructed state (no script
installed) ends with the running flag clear. -/
theorem resolveLink_clears_isRunning_witness :
    ((resolveLink "u" [] envNoScript emptyState).state).isRunning = false :=
  resolveLink_clears_isRunning "u" [] envNoScript emptyState rfl

/- ### C1 -/

/-- C1: while the cache holds an entry under the same url and headers
whose stored timestamp is less than 20 minutes old, `resolveLink` returns
the cached result without invoking the external program and without
changing the state; once at least 20 minutes have elapsed the entry is
ignored: the call is exactly the cache-miss path, and its returned value
and invoked flag coincide with those of a call on a state whose cache
does not hold the key at all. -/
theorem resolveLink_cache_ttl (url : String)
    (headers : List (String × String)) (env : ResolveEnv α)
    (s : ResolverState α) (entry : CacheEntry α)
    (hget : cacheGet s.cache (cacheKey url headers) = some entry) :
    (env.now - entry.timestamp < cacheExpiryTime →
      resolveLink url headers env s = ⟨some entry.data, s, false⟩)
    ∧ (cacheExpiryTime ≤ env.now - entry.timestamp →
      resolveLink url headers env s = resolveMiss (cacheKey url headers) env s
      ∧ (resolveLink url headers env s).result
          = (resolveLink url headers env
              { s with cache := cacheErase (cacheKey url headers) s.cache }).result
      ∧ (resolveLink url headers env s).invoked
          = (resolveLink url headers env
              { s with cache := cacheErase (cacheKey url headers) s.cache }).invoked) := by
  constructor
  · intro hf
    simp [resolveLink, hget, hf]
  · intro hst
    have hf : ¬ env.now - entry.timestamp < cacheExpiryTime := not_lt.mpr hst
    have h1 : resolveLink url headers env s
        = resolveMiss (cacheKey url headers) env s := by
      simp [resolveLink, hget, hf]
    have h2 : resolveLink url headers env
          { s with cache := cacheErase (cacheKey url headers) s.cache }
        = resolveMiss (cacheKey url headers) env
          { s with cache := cacheErase (cacheKey url headers) s.cache } := by
      simp [resolveLink, cacheGet_cacheErase]
    refine ⟨h1, ?_, ?_⟩
    · rw [h1, h2]
      exact (resolveMiss_cache_irrel (cacheKey url headers) env s _).1.symm
    · rw [h1, h2]
      exact (resolveMiss_cache_irrel (cacheKey url headers) env s _).2.symm

/-- A state holding one fresh cached result for url `u`. -/
def sCached : ResolverState Nat :=
  { emptyState with cache := [(cacheKey "u" [("A", "1")], ⟨0, 7⟩)] }

/-- Witness for C1: a second call 1000 ms after the entry was stored is
served from the cache, unchanged state, program not invoked. -/
theorem resolveLink_cache_ttl_witness :
    resolveLink "u" [("A", "1")] envNoScript sCached
      = ⟨some 7, sCached, false⟩ :=
  (resolveLink_cache_ttl "u" [("A", "1")] envNoScript sCached ⟨0, 7⟩
    (by decide)).1 (by decide)

/- ### C3 -/

/-- A header mapping, and the same pairs inserted in the other order. -/
def headersAB : List (String × String) := [("A", "1"), ("B", "2")]

/-- The same key-value pairs as `headersAB`, inserted in reverse order. -/
def headersBA : List (String × String) := [("B", "2"), ("A", "1")]

/-- A state holding a fresh cached result under the `headersAB`
fingerprint. -/
def sCachedAB : ResolverState Nat :=
  { emptyState with cache := [(cacheKey "http://u" headersAB, ⟨0, 42⟩)] }

/-- C3 counterexample: two header mappings with exactly the same
key-value pairs but different insertion order produce different cache
fingerprints, and a result cached under the first is not returned for
the second — the claimed insertion-order independence fails. -/
theorem fingerprint_order_cex :
    headersAB.Perm headersBA
    ∧ cacheKey "http://u" headersAB ≠ cacheKey "http://u" headersBA
    ∧ cacheGet sCachedAB.cache (cacheKey "http://u" headersAB) = some ⟨0, 42⟩
    ∧ envNoScript.now - 0 < cacheExpiryTime
    ∧ (resolveLink "http://u" headersBA envNoScript sCachedAB).result = none := by
  exact ⟨by decide, by decide, by decide, by decide, by decide⟩

/-- C3 (amended): the fingerprint is determined by the url and the JSON
serialization of the headers in property-enumeration (insertion) order;
whenever two header mappings serialize identically, a fresh result cached
under one is a cache hit for the other, served without invoking the
external program. -/
theorem fingerprint_serialization_hit (url : String)
    (h1 h2 : List (String × String)) (env : ResolveEnv α)
    (s : ResolverState α) (entry : CacheEntry α)
    (hser : jsonStringifyHeaders h1 = jsonStringifyHeaders h2)
    (hget : cacheGet s.cache (cacheKey url h1) = some entry)
    (hfresh : env.now - entry.timestamp < cacheExpiryTime) :
    (resolveLink url h2 env s).result = some entry.data
    ∧ (resolveLink url h2 env s).invoked = false := by
  have hkey : cacheKey url h2 = cacheKey url h1 := by
    unfold cacheKey
    rw [hser]
  simp [resolveLink, hkey, hget, hfresh]

/-- Witness for C3 (amended): the cached entry is served for an
identically serialized mapping. -/
theorem fingerprint_serialization_hit_witness :
    (resolveLink "http://u" headersAB envNoScript sCachedAB).result = some 42
    ∧ (resolveLink "http://u" headersAB envNoScript sCachedAB).invoked = false :=
  fingerprint_serialization_hit "http://u" headersAB headersAB envNoScript
    sCachedAB ⟨0, 42⟩ rfl (by decide) (by decide)

/- ### C7 -/

/-- Every failing miss path records one of the four descriptive error
messages. -/
theorem resolveMiss_failure_msg (key : String) (env : ResolveEnv α)
    (s : ResolverState α)
    (hfail : (resolveMiss key env s).result = none) :
    ((resolveMiss key env s).state).lastError
        = some "Python resolver script not found"
    ∨ (∃ m, ((resolveMiss key env s).state).lastError
        = some ("Execution error: " ++ m))
    ∨ ((resolveMiss key env s).state).lastError = some "Output file not created"
    ∨ (∃ m, ((resolveMiss key env s).state).lastError
        = some ("Parsing error: " ++ m)) := by
  cases hsc : s.scriptContent <;>
    cases henv : env.execThrows <;>
    cases hout : env.outputExists <;>
    cases hp : env.parse env.outputContent <;>
    simp_all [resolveMiss]

/-- C7: `resolveLink` never surfaces an exception (in this embedding it
is a total function into a plain outcome); whenever it returns null —
missing program file, process execution error, missing output artifact,
or unparseable output — `lastError` holds the corresponding descriptive
message. -/
theorem resolveLink_failure_sets_lastError (url : String)
    (headers : List (String × String)) (env : ResolveEnv α)
    (s : ResolverState α)
    (hfail : (resolveLink url headers env s).result = none) :
    ((resolveLink url headers env s).state).lastError
        = some "Python resolver script not found"
    ∨ (∃ m, ((resolveLink url headers env s).state).lastError
        = some ("Execution error: " ++ m))
    ∨ ((resolveLink url headers env s).state).lastError
        = some "Output file not created"
    ∨ (∃ m, ((resolveLink url headers env s).state).lastError
        = some ("Parsing error: " ++ m)) := by
  cases hget : cacheGet s.cache (cacheKey url headers) with
  | none =>
    have hm := resolveMiss_failure_msg (cacheKey url headers) env s
      (by simpa [resolveLink, hget] using hfail)
    simpa [resolveLink, hget] using hm
  | some entry =>
    by_cases hf : env.now - entry.timestamp < cacheExpiryTime
    · exact absurd hfail (by simp [resolveLink, hget, hf])
    · have hm := resolveMiss_failure_msg (cacheKey url headers) env s
        (by simpa [resolveLink, hget, hf] using hfail)
      simpa [resolveLink, hget, hf] using hm

/-- Witness for C7: with no program installed the call returns null and
one of the descriptive messages is recorded. -/
theorem resolveLink_failure_sets_lastError_witness :
    ((resolveLink "u" [] envNoScript emptyState).state).lastError
        = some "Python resolver script not found"
    ∨ (∃ m, ((resolveLink "u" [] envNoScript emptyState).state).lastError
        = some ("Execution error: " ++ m))
    ∨ ((resolveLink "u" [] envNoScript emptyState).state).lastError
        = some "Output file not created"
    ∨ (∃ m, ((resolveLink "u" [] envNoScript emptyState).state).lastError
        = some ("Parsing error: " ++ m)) :=
  resolveLink_failure_sets_lastError "u" [] envNoScript emptyState (by decide)

/- ### C2 -/

/-- After `stopScheduledUpdates` no cron job is active, whether or not
one was active before. -/
theorem stopScheduledUpdates_cronJob (s : ResolverState α) :
    ((stopScheduledUpdates s).2).cronJob = none := by
  cases h : s.cronJob <;> simp [stopScheduledUpdates, h]

/-- A state with an active schedule installed. -/
def sActiveTimer : ResolverState Nat :=
  { emptyState with cronJob := some "30 */2 * * *", updateInterval := some "2:30" }

/-- C2 counterexample: `scheduleUpdate` stops the existing schedule
before validating, so after an invalid specification the previously
active timer is gone — not "still active and unreplaced" as claimed. -/
theorem scheduleUpdate_invalid_stops_timer_cex :
    sActiveTimer.cronJob = some "30 */2 * * *"
    ∧ (scheduleUpdate "bad" envCronOk sActiveTimer).1 = false
    ∧ ((scheduleUpdate "bad" envCronOk sActiveTimer).2).cronJob = none
    ∧ ((scheduleUpdate "bad" envCronOk sActiveTimer).2).updateInterval = none := by
  decide

/-- C2 (amended): for every invalid interval specification (wrong shape,
hours above 23 or minutes above 59), `scheduleUpdate` returns failure and
records a validation error, and afterwards no schedule is active: any
timer that was active before the call was stopped (the stop precedes the
validation) and no new timer is installed. -/
theorem scheduleUpdate_invalid_no_schedule (t : String) (env : ScheduleEnv)
    (s : ResolverState α)
    (hinv : t = "" ∨ matchesTimeFormat t = false
      ∨ 23 < (parseHM t).1 ∨ 59 < (parseHM t).2) :
    (scheduleUpdate t env s).1 = false
    ∧ ((scheduleUpdate t env s).2).cronJob = none
    ∧ ((scheduleUpdate t env s).2).lastError ≠ none := by
  by_cases h1 : t = "" ∨ matchesTimeFormat t = false
  · refine ⟨?_, ?_, ?_⟩ <;>
      simp [scheduleUpdate, h1, stopScheduledUpdates_cronJob]
  · have h2 : 23 < (parseHM t).1 ∨ 59 < (parseHM t).2 := by tauto
    refine ⟨?_, ?_, ?_⟩ <;>
      simp [scheduleUpdate, h1, h2, stopScheduledUpdates_cronJob]

/-- Witness for C2 (amended) at the out-of-range specification `1:60`,
starting from a state with an active timer. -/
theorem scheduleUpdate_invalid_no_schedule_witness :
    (scheduleUpdate "1:60" envCronOk sActiveTimer).1 = false
    ∧ ((scheduleUpdate "1:60" envCronOk sActiveTimer).2).cronJob = none
    ∧ ((scheduleUpdate "1:60" envCronOk sActiveTimer).2).lastError ≠ none :=
  scheduleUpdate_invalid_no_schedule "1:60" envCronOk sActiveTimer (by decide)

/- ### C4 -/

/-- C4 evaluation at the failing input `2:30`: the call succeeds and
installs the cron expression `30 */2 * * *`, whose firings (node-cron
semantics) during the first 151 minutes of a day are exactly minutes 30
and 150 — consecutive firings 120 minutes apart, not the period of
2 hours 30 minutes (150 minutes) stated by the claim and by the code's
own log message. -/
theorem scheduleUpdate_cron_period_bug :
    (scheduleUpdate "2:30" envCronOk emptyState).1 = true
    ∧ ((scheduleUpdate "2:30" envCronOk emptyState).2).cronJob
        = some "30 */2 * * *"
    ∧ ((List.range 151).filter fun t => cronFiresAt 2 30 t) = [30, 150]
    ∧ 150 - 30 = 120
    ∧ 2 * 60 + 30 = 150 := by
  decide

/- ### C5 -/

/-- C5 counterexample: `0:5` does not match the validation regex (the
minute field needs exactly two digits), so `scheduleUpdate "0:5"` fails —
contradicting the claim that it succeeds. -/
theorem scheduleUpdate_single_digit_minutes_cex :
    matchesTimeFormat "0:5" = false
    ∧ (scheduleUpdate "0:5" envCronOk emptyState).1 = false
    ∧ ((scheduleUpdate "0:5" envCronOk emptyState).2).lastError
        = some "Invalid time format. Use HH:MM or H:MM" := by
  decide

/-- C5 (amended): provided the timer library accepts the produced
expression, `scheduleUpdate t` succeeds exactly when `t` consists of one
or two hour digits, a colon and exactly two minute digits, with hours at
most 23 and minutes at most 59 — so `0:05`, `2:30` succeed while `0:5`,
`24:00` and `1:60` fail. -/
theorem scheduleUpdate_success_iff (t : String) (env : ScheduleEnv)
    (s : ResolverState α) (hc : env.cronThrows = none) :
    (scheduleUpdate t env s).1 = true
      ↔ matchesTimeFormat t = true ∧ (parseHM t).1 ≤ 23 ∧ (parseHM t).2 ≤ 59 := by
  simp only [scheduleUpdate]
  split_ifs with h1 h2
  · simp only [false_iff, not_and]
    intro hmat
    rcases h1 with h | h
    · subst h
      exact absurd hmat (by decide)
    · rw [h] at hmat
      cases hmat
  · simp only [false_iff, not_and]
    intro _ hh
    omega
  · rw [hc]
    simp only [true_iff]
    push_neg at h1 h2
    refine ⟨?_, h2.1, h2.2⟩
    cases hval : matchesTimeFormat t
    · exact absurd hval h1.2
    · rfl

/-- Witness for C5 (amended): `2:30` passes the shape and bounds checks,
so scheduling succeeds. -/
theorem scheduleUpdate_success_iff_witness :
    (scheduleUpdate "2:30" envCronOk emptyState).1 = true :=
  (scheduleUpdate_success_iff "2:30" envCronOk emptyState rfl).mpr (by decide)

end PythonResolver
